import Mathlib

/-!
Verification development for the student/room ETL pipeline (`solution.py`).

The pipeline loads student/room records from JSON or XML files, provisions a
MySQL schema (database, two tables, three indexes), bulk-inserts the records,
and runs aggregate reports.  This file gives a shallow embedding of the parts
of the program that the specification talks about:

* the JSON loader's birthday parsing (`datetime.strptime` with the fixed
  format string `%Y-%m-%dT%H:%M:%S.%f`, followed by `.date()`);
* the XML loader's try/except around `ET.parse`;
* `MySqlConnection.close` / `executemany` (commit / rollback semantics);
* `MySqlProcessor.initialize_db`, `insert_data`, the occupancy report query,
  and the `run` orchestration (modelled as an event trace).

Machine-level collaborators (the MySQL server, the `mysql.connector` driver,
`xml.etree.ElementTree`, `datetime`) are modelled by their documented
behaviour at the call boundary; everything written in `solution.py` itself is
translated statement by statement.
-/

/-! ### Calendar dates (model of `datetime.date`) -/

/-- A calendar date, the result of `datetime.strptime(...).date()`. -/
structure PDate where
  year : Nat
  month : Nat
  day : Nat
deriving DecidableEq, Repr

/-- Gregorian leap-year rule used by `datetime`. -/
def isLeapYear (y : Nat) : Bool :=
  y % 4 = 0 && (y % 100 ≠ 0 || y % 400 = 0)

/-- Number of days in a month, as validated by the `datetime` constructor. -/
def daysInMonth (y m : Nat) : Nat :=
  if m = 2 then (if isLeapYear y then 29 else 28)
  else if m = 4 || m = 6 || m = 9 || m = 11 then 30
  else 31

/-- A valid `datetime.date` value: year in `MINYEAR..MAXYEAR`, month `1..12`,
day within the month. -/
def validDate (d : PDate) : Bool :=
  1 ≤ d.year && d.year ≤ 9999 &&
  1 ≤ d.month && d.month ≤ 12 &&
  1 ≤ d.day && d.day ≤ daysInMonth d.year d.month

/-! ### Records (the `Student` and `Room` dataclasses) -/

/-- The `Student` dataclass as built by `JsonDataLoader.load`
(birthday already parsed to a calendar date). -/
structure Student where
  id : Int
  name : String
  room_id : Int
  birthday : PDate
  sex : String
deriving DecidableEq, Repr

/-- The `Room` dataclass. -/
structure Room where
  id : Int
  name : String
deriving DecidableEq, Repr

/-! ### The processor's schema statements (`MySqlProcessor.__init__`,
`_create_database`, `_use_database`) -/

/-- `MySqlProcessor` state relevant to statement generation: the target
database name chosen in `__init__`. -/
structure MySqlProcessor where
  database_name : String
deriving DecidableEq, Repr

/-- `MySqlProcessor.__init__`: `db_name if db_name is not None else "myDb"`. -/
def mkMySqlProcessor (db_name : Option String) : MySqlProcessor :=
  ⟨db_name.getD "myDb"⟩

/-- The statement built by `_create_database`
(f-string interpolation of the database name). -/
def MySqlProcessor.create_database_stmt (p : MySqlProcessor) : String :=
  "CREATE DATABASE IF NOT EXISTS " ++ p.database_name

/-- The statement built by `_use_database`. -/
def MySqlProcessor.use_database_stmt (p : MySqlProcessor) : String :=
  "USE " ++ p.database_name

/-! ### Server-side schema state and DDL semantics

`initialize_db` issues seven DDL statements against the MySQL server.  The
server is modelled by its catalog: which databases exist, which tables and
index names exist inside each, and which database is currently selected.
`CREATE DATABASE IF NOT EXISTS` and `CREATE TABLE IF NOT EXISTS` are
create-if-absent; MySQL's `CREATE INDEX` has no `IF NOT EXISTS` form and
fails with a duplicate-key-name error when the index already exists. -/

/-- Catalog of a single database: its table names and (students-table)
index names. -/
structure DbCatalog where
  tables : List String
  indexes : List String
deriving DecidableEq, Repr

/-- The MySQL server's schema state. -/
structure ServerState where
  dbs : List (String × DbCatalog)
  current : Option String
deriving DecidableEq, Repr

/-- Errors a DDL statement can raise. -/
inductive SqlError where
  | duplicateKeyName (idx : String)
  | unknownDatabase (name : String)
  | noDatabaseSelected
deriving DecidableEq, Repr

/-- Look up a database in the catalog. -/
def lookupDb (s : ServerState) (n : String) : Option DbCatalog :=
  (s.dbs.find? (fun p => p.1 = n)).map Prod.snd

/-- Apply a catalog update to the named database (no-op if absent). -/
def updateDb (s : ServerState) (n : String) (f : DbCatalog → DbCatalog) : ServerState :=
  { s with dbs := s.dbs.map (fun p => if p.1 = n then (p.1, f p.2) else p) }

/-- Semantics of `CREATE DATABASE IF NOT EXISTS n`: never fails. -/
def exec_create_database (s : ServerState) (n : String) : ServerState :=
  if (lookupDb s n).isSome then s
  else { s with dbs := s.dbs ++ [(n, ⟨[], []⟩)] }

/-- Semantics of `USE n`. -/
def exec_use_database (s : ServerState) (n : String) : Except SqlError ServerState :=
  if (lookupDb s n).isSome then .ok { s with current := some n }
  else .error (.unknownDatabase n)

/-- Semantics of `CREATE TABLE IF NOT EXISTS t`: never a duplicate error. -/
def exec_create_table_if_not_exists (s : ServerState) (t : String) :
    Except SqlError ServerState :=
  match s.current with
  | none => .error .noDatabaseSelected
  | some dbn =>
    match lookupDb s dbn with
    | none => .error (.unknownDatabase dbn)
    | some cat =>
      if cat.tables.contains t then .ok s
      else .ok (updateDb s dbn (fun c => { c with tables := c.tables ++ [t] }))

/-- Semantics of `CREATE INDEX idx ON students (...)`: MySQL raises a
duplicate-key-name error (errno 1061) when `idx` already exists; there is no
`IF NOT EXISTS` form. -/
def exec_create_index (s : ServerState) (idx : String) :
    Except SqlError ServerState :=
  match s.current with
  | none => .error .noDatabaseSelected
  | some dbn =>
    match lookupDb s dbn with
    | none => .error (.unknownDatabase dbn)
    | some cat =>
      if cat.indexes.contains idx then .error (.duplicateKeyName idx)
      else .ok (updateDb s dbn (fun c => { c with indexes := c.indexes ++ [idx] }))

/-- `MySqlProcessor.initialize_db`: `_create_database`, `_use_database`,
`_create_tables` (rooms then students, both `IF NOT EXISTS`), then
`_create_indexes` (three plain `CREATE INDEX` statements, in source order).
Any statement failure propagates. -/
def initialize_db (p : MySqlProcessor) (s : ServerState) :
    Except SqlError ServerState := do
  let s1 := exec_create_database s p.database_name
  let s2 ← exec_use_database s1 p.database_name
  let s3 ← exec_create_table_if_not_exists s2 "rooms"
  let s4 ← exec_create_table_if_not_exists s3 "students"
  let s5 ← exec_create_index s4 "idx_students_room_id"
  let s6 ← exec_create_index s5 "idx_students_birthday"
  exec_create_index s6 "idx_students_room_sex"

/-! ### `MySqlConnection` resource state and `close` -/

/-- A driver-side call made by `MySqlConnection.close`. -/
inductive DriverCall where
  | cursorClose
  | connClose
deriving DecidableEq, Repr

/-- `MySqlConnection` resource state: `self.conn` and `self.cursor` are
`None` until `connect()`; afterwards they hold driver objects (`some b`,
where `b` records whether the object is still open).  `close()` never resets
them to `None`. -/
structure MySqlConnection where
  conn : Option Bool
  cursor : Option Bool
deriving DecidableEq, Repr

/-- `MySqlConnection.__init__`: `self.conn = None`, `self.cursor = None`. -/
def mkMySqlConnection : MySqlConnection := ⟨none, none⟩

/-- `MySqlConnection.connect` (on success): both driver objects exist and
are open. -/
def MySqlConnection.connectOk (_c : MySqlConnection) : MySqlConnection :=
  ⟨some true, some true⟩

/-- `MySqlConnection.close`: `if self.cursor: self.cursor.close()` then
`if self.conn: self.conn.close()`.  A `None` field is falsy, so nothing is
called; a non-`None` field is always truthy (driver objects define no
`__bool__`), so the driver `close` runs even on an already-closed object —
the driver's `close` is documented to succeed in that case and leaves the
object closed.  Returns the new state, the driver calls made, and the
(absent) raised error. -/
def MySqlConnection.close (c : MySqlConnection) :
    Except String (MySqlConnection × List DriverCall) :=
  let (cur2, calls1) :=
    match c.cursor with
    | none => (none, ([] : List DriverCall))
    | some _ => (some false, [DriverCall.cursorClose])
  let (cn2, calls2) :=
    match c.conn with
    | none => (none, ([] : List DriverCall))
    | some _ => (some false, [DriverCall.connClose])
  .ok (⟨cn2, cur2⟩, calls1 ++ calls2)

/-! ### `MySqlConnection.executemany`: per-batch transaction semantics

The connection holds a committed database state and the cursor's pending
(uncommitted) state.  `cursor.executemany(query, args)` executes the
statement once per row of `args`, in order, stopping at the first failing
row; the row-level statement semantics is a parameter `step` (it is fixed to
the concrete `INSERT` semantics further below).  `conn.commit()` makes the
pending state durable; `conn.rollback()` discards pending changes, resetting
the cursor's state to the committed one. -/

/-- Connection state: committed (durable) database state and the pending
state seen by the cursor. -/
structure TxConn (ρ : Type) where
  committed : ρ
  pending : ρ
deriving DecidableEq, Repr

/-- `cursor.executemany`: run `step` once per row, in order, stopping at the
first failing row. -/
def cursor_executemany {ρ α ε : Type} (step : ρ → α → Except ε ρ) :
    ρ → List α → Except ε ρ
  | st, [] => .ok st
  | st, r :: rs =>
    match step st r with
    | .ok st2 => cursor_executemany step st2 rs
    | .error e => .error e

/-- `MySqlConnection.executemany`:
`try: cursor.executemany(...); conn.commit() except Error: conn.rollback(); raise`.
Returns the connection state after the call together with the re-raised
error, if any. -/
def executemany {ρ α ε : Type} (step : ρ → α → Except ε ρ)
    (c : TxConn ρ) (rows : List α) : TxConn ρ × Option ε :=
  match cursor_executemany step c.pending rows with
  | .ok p => (⟨p, p⟩, none)
  | .error e => (⟨c.committed, c.committed⟩, some e)

/-! ### Table rows and `INSERT` row semantics (for `insert_data`) -/

/-- Errors raised by a single `INSERT` row execution. -/
inductive QueryError where
  | duplicateEntry
  | fkViolation
deriving DecidableEq, Repr

/-- The database's table contents: `rooms (id, name)` and
`students (id, name, room_id, birthday, sex)` rows. -/
structure DbData where
  rooms : List (Int × String)
  students : List (Int × String × Int × PDate × String)
deriving DecidableEq, Repr

/-- Row semantics of `INSERT INTO rooms (id, name) VALUES (%s, %s)`:
primary-key uniqueness on `id`. -/
def insert_room_row (db : DbData) (r : Int × String) : Except QueryError DbData :=
  if (db.rooms.map Prod.fst).contains r.1 then .error .duplicateEntry
  else .ok { db with rooms := db.rooms ++ [r] }

/-- Row semantics of
`INSERT INTO students (id, name, room_id, birthday, sex) VALUES (...)`:
primary-key uniqueness on `id` and the `FOREIGN KEY (room_id) REFERENCES
rooms (id)` constraint. -/
def insert_student_row (db : DbData) (s : Int × String × Int × PDate × String) :
    Except QueryError DbData :=
  if (db.students.map Prod.fst).contains s.1 then .error .duplicateEntry
  else if (db.rooms.map Prod.fst).contains s.2.2.1 then
    .ok { db with students := db.students ++ [s] }
  else .error .fkViolation

/-- The tuples built in `insert_data`: `[(room.id, room.name) for room in rooms]`. -/
def rooms_data (rooms : List Room) : List (Int × String) :=
  rooms.map (fun r => (r.id, r.name))

/-- The tuples built in `insert_data`: `[(s.id, s.name, s.room_id, s.birthday,
s.sex) for s in students]`. -/
def students_data (students : List Student) :
    List (Int × String × Int × PDate × String) :=
  students.map (fun s => (s.id, s.name, s.room_id, s.birthday, s.sex))

/-- `MySqlProcessor.insert_data`: `executemany` of the room batch, then
`executemany` of the student batch.  An error raised by the room batch
propagates, so the student batch does not run. -/
def insert_data (c : TxConn DbData) (students : List Student)
    (rooms : List Room) : TxConn DbData × Option QueryError :=
  let res1 := executemany insert_room_row c (rooms_data rooms)
  match res1.2 with
  | some e => (res1.1, some e)
  | none => executemany insert_student_row res1.1 (students_data students)

/-! ### The occupancy report (`MySqlProcessor._print_student_counts`)

The query is
`SELECT r.name, COUNT(s.id) FROM rooms r JOIN students s ON r.id = s.room_id
GROUP BY r.name ORDER BY student_count DESC`.
The inner join produces one row per (room, student) pair with matching ids;
grouping is by the room **name**; the result is sorted by count, descending
(tie order is engine-defined; the model uses a stable descending sort). -/

/-- One join-row name per (room, student) pair with `r.id = s.room_id`. -/
def joinNames (db : DbData) : List String :=
  db.rooms.flatMap (fun r => (db.students.filter (fun s => s.2.2.1 = r.1)).map (fun _ => r.2))

/-- Insert a row into a list kept in descending order of count (stable). -/
def insertDesc (x : String × Nat) : List (String × Nat) → List (String × Nat)
  | [] => [x]
  | y :: ys => if y.2 < x.2 then x :: y :: ys else y :: insertDesc x ys

/-- Stable insertion sort, descending by count (`ORDER BY student_count DESC`). -/
def sortDesc (l : List (String × Nat)) : List (String × Nat) :=
  l.foldr insertDesc []

/-- Result rows of the occupancy query: one `(room_name, student_count)` row
per distinct room name occurring in the join, sorted descending by count. -/
def student_counts (db : DbData) : List (String × Nat) :=
  sortDesc (((joinNames db).dedup).map (fun n => (n, (joinNames db).count n)))

/-! ### The orchestrator (`MySqlProcessor.run`) as an event trace

`run` executes, inside `try`/`except Exception`, the block
`with self.database as db:` whose body is: `initialize_db`, `clear_tables`,
`self.loader.load("students.json", "rooms.json")`, `insert_data`,
`retrieve_filtered_data`.  The `with` statement calls `__enter__`
(= `connect()`) first and `__exit__` (= `close()`) on every exit of the body,
normal or exceptional; if `__enter__` itself raises, `__exit__` never runs.
The trace records each attempted step; a step's outcome (success, or the
message of the exception it raises) is an input of the model. -/

/-- The two interchangeable loader variants. -/
inductive LoaderKind where
  | json
  | xml
deriving DecidableEq, Repr

/-- Events of one orchestrator run. -/
inductive PipeEvent where
  | connect
  | init_db
  | clear
  | load (kind : LoaderKind) (students_path rooms_path : String)
  | insert
  | report
  | close
  | caught
deriving DecidableEq, Repr

/-- Outcome of each pipeline step: `none` = success, `some msg` = the step
raises an exception with message `msg`. -/
structure StepOutcomes where
  connect_err : Option String
  init_err : Option String
  clear_err : Option String
  load_err : Option String
  insert_err : Option String
  report_err : Option String
deriving DecidableEq, Repr

/-- Run a sequence of (event, outcome) steps: each step's event is recorded
when the step is attempted; the first failure aborts the rest. -/
def seqSteps : List (PipeEvent × Option String) → List PipeEvent × Option String
  | [] => ([], none)
  | (e, r) :: rest =>
    match r with
    | some msg => ([e], some msg)
    | none =>
      let t := seqSteps rest
      (e :: t.1, t.2)

/-- `MySqlProcessor.run`: the `with` block (connect, body, close) inside the
top-level `try`/`except Exception` (which appends the catch event). -/
def run_trace (kind : LoaderKind) (o : StepOutcomes) : List PipeEvent :=
  match o.connect_err with
  | some _ => [PipeEvent.connect, PipeEvent.caught]
  | none =>
    let body := seqSteps
      [(PipeEvent.init_db, o.init_err),
       (PipeEvent.clear, o.clear_err),
       (PipeEvent.load kind "students.json" "rooms.json", o.load_err),
       (PipeEvent.insert, o.insert_err),
       (PipeEvent.report, o.report_err)]
    PipeEvent.connect :: body.1 ++ [PipeEvent.close] ++
      (match body.2 with
       | some _ => [PipeEvent.caught]
       | none => [])

/-- Whether some step of the `with` body fails in outcome `o` (connect
assumed successful). -/
def bodyFailed (o : StepOutcomes) : Bool :=
  o.init_err.isSome || o.clear_err.isSome || o.load_err.isSome ||
  o.insert_err.isSome || o.report_err.isSome

/-! ### Birthday parsing in `JsonDataLoader.load`

The loader calls `datetime.strptime(s, '%Y-%m-%dT%H:%M:%S.%f').date()`.
`strptime` matches the whole string against the format: `%Y` is exactly four
digits, `%m`/`%d`/`%H`/`%M`/`%S` are one or two digits within their range
(`%d` up to 31, further restricted by the month when the `datetime` is
constructed), `%f` is one to six digits, and the literal `-`, `T`, `:`, `.`
characters separate the fields.  On no match (or an invalid calendar
combination, or year 0) it raises `ValueError`; `.date()` keeps the calendar
date and drops the time of day.  Digits are modelled as ASCII digits. -/

/-- Split a character list on a separator character (like `str.split(sep)`:
`n` separators give `n+1` chunks, possibly empty). -/
def splitOnChar (c : Char) : List Char → List (List Char)
  | [] => [[]]
  | x :: xs =>
    match splitOnChar c xs with
    | [] => [[]]
    | h :: t => if x = c then [] :: h :: t else (x :: h) :: t

/-- Numeric value of a digit list (digits only; junk digits contribute 0,
but callers guard with `Char.isDigit`). -/
def digitsVal (cs : List Char) : Nat :=
  cs.foldl (fun acc c => acc * 10 + (c.toNat - 48)) 0

/-- Match one numeric field of the format: `minLen..maxLen` ASCII digits
whose value lies in `lo..hi`. -/
def parseField (cs : List Char) (minLen maxLen lo hi : Nat) : Option Nat :=
  if cs.length < minLen ∨ maxLen < cs.length ∨ ¬ cs.all Char.isDigit then none
  else if lo ≤ digitsVal cs ∧ digitsVal cs ≤ hi then some (digitsVal cs) else none

/-- Model of `datetime.strptime(s, '%Y-%m-%dT%H:%M:%S.%f').date()`:
`some` date on success, `none` when `strptime` raises `ValueError`. -/
def parseBirthday (s : String) : Option PDate :=
  match splitOnChar 'T' s.data with
  | [dpart, tpart] =>
    match splitOnChar '-' dpart with
    | [ys, ms, ds] =>
      match splitOnChar ':' tpart with
      | [hs, mins, rest] =>
        match splitOnChar '.' rest with
        | [ss, fs] =>
          match parseField ys 4 4 1 9999, parseField ms 1 2 1 12,
                parseField ds 1 2 1 31, parseField hs 1 2 0 23,
                parseField mins 1 2 0 59, parseField ss 1 2 0 59,
                parseField fs 1 6 0 999999 with
          | some y, some m, some d, some _, some _, some _, some _ =>
            if d ≤ daysInMonth y m then some ⟨y, m, d⟩ else none
          | _, _, _, _, _, _, _ => none
        | _ => none
      | _ => none
    | _ => none
  | _ => none

/-- A student record of the JSON input file, with the keys the loader
accesses (`id`, `name`, `room`, `birthday`, `sex`). -/
structure StudentJson where
  id : Int
  name : String
  room : Int
  birthday : String
  sex : String
deriving DecidableEq, Repr

/-- Errors raised inside the loaders, named by their Python exception class
(`etParseError` stands for a raw `xml.etree.ElementTree.ParseError`). -/
inductive PyError where
  | valueError (msg : String)
  | attributeError
  | typeError
  | etParseError
deriving DecidableEq, Repr

/-- The student list comprehension of `JsonDataLoader.load`: each record's
birthday is parsed by `strptime`; the first record whose birthday does not
match the format raises `ValueError` out of the comprehension. -/
def jsonLoadStudents : List StudentJson → Except PyError (List Student)
  | [] => .ok []
  | r :: rs =>
    match parseBirthday r.birthday with
    | none =>
      .error (.valueError
        ("time data " ++ r.birthday ++
         " does not match format %Y-%m-%dT%H:%M:%S.%f"))
    | some d =>
      match jsonLoadStudents rs with
      | .ok studs => .ok (⟨r.id, r.name, r.room, d, r.sex⟩ :: studs)
      | .error e => .error e

/-! ### `XmlDataLoader.load`

`ET.parse(path)` raises `ET.ParseError` on a document that is not well-formed
XML; a parsed file is its root's list of child elements.  `parse_students`
and `parse_rooms` each wrap the parse and the per-element field extraction in
`try: ... except ET.ParseError: raise ValueError(f"Error parsing XML file:
{path}")`; only `ET.ParseError` is converted, anything else propagates. -/

/-- An XML element as the loader uses it: the texts of its child elements by
tag (`none` text for an empty element). -/
structure XmlElem where
  children : List (String × Option String)
deriving DecidableEq, Repr

/-- `el.find(tag)` followed by `.text`: `none` when no such child exists
(`find` returns `None`, so `.text` raises `AttributeError` at the caller). -/
def XmlElem.findText (el : XmlElem) (tag : String) : Option (Option String) :=
  (el.children.find? (fun p => p.1 = tag)).map Prod.snd

/-- A parsed-or-malformed XML file: the outcome of `ET.parse` on it.  A file
that is not well-formed XML is `.error .etParseError`. -/
def XmlFile : Type := Except PyError (List XmlElem)

/-- The `Student` as built by `XmlDataLoader` (birthday kept as the raw text,
sex/name/birthday possibly `None`). -/
structure XmlStudent where
  id : Int
  name : Option String
  room_id : Int
  birthday : Option String
  sex : Option String
deriving DecidableEq, Repr

/-- The `Room` as built by `XmlDataLoader`. -/
structure XmlRoom where
  id : Int
  name : Option String
deriving DecidableEq, Repr

/-- `int(text)` on a child's text: `TypeError` on `None`, `ValueError` on a
non-numeric string; otherwise the integer (optional sign, ASCII digits). -/
def pyIntOfText : Option String → Except PyError Int
  | none => .error .typeError
  | some s =>
    match s.data with
    | '-' :: ds =>
      if ds ≠ [] ∧ ds.all Char.isDigit then .ok (-(digitsVal ds : Int))
      else .error (.valueError ("invalid literal for int() with base 10: " ++ s))
    | ds =>
      if ds ≠ [] ∧ ds.all Char.isDigit then .ok (digitsVal ds : Int)
      else .error (.valueError ("invalid literal for int() with base 10: " ++ s))

/-- `el.find(tag).text`, raising `AttributeError` when the child is absent. -/
def findTextOrErr (el : XmlElem) (tag : String) : Except PyError (Option String) :=
  match el.findText tag with
  | none => .error .attributeError
  | some t => .ok t

/-- Build one `Student` from a student element (field order as in the
source's keyword arguments). -/
def mkXmlStudent (el : XmlElem) : Except PyError XmlStudent := do
  let idT ← findTextOrErr el "id"
  let idv ← pyIntOfText idT
  let nameT ← findTextOrErr el "name"
  let roomT ← findTextOrErr el "room"
  let roomv ← pyIntOfText roomT
  let bdT ← findTextOrErr el "birthday"
  let sexT ← findTextOrErr el "sex"
  return ⟨idv, nameT, roomv, bdT, sexT⟩

/-- Build one `Room` from a room element. -/
def mkXmlRoom (el : XmlElem) : Except PyError XmlRoom := do
  let idT ← findTextOrErr el "id"
  let idv ← pyIntOfText idT
  let nameT ← findTextOrErr el "name"
  return ⟨idv, nameT⟩

/-- The element loop of `parse_students`. -/
def mapXmlStudents : List XmlElem → Except PyError (List XmlStudent)
  | [] => .ok []
  | el :: els =>
    match mkXmlStudent el with
    | .error e => .error e
    | .ok st =>
      match mapXmlStudents els with
      | .ok sts => .ok (st :: sts)
      | .error e => .error e

/-- The element loop of `parse_rooms`. -/
def mapXmlRooms : List XmlElem → Except PyError (List XmlRoom)
  | [] => .ok []
  | el :: els =>
    match mkXmlRoom el with
    | .error e => .error e
    | .ok rm =>
      match mapXmlRooms els with
      | .ok rms => .ok (rm :: rms)
      | .error e => .error e

/-- `try: body except ET.ParseError: raise ValueError(f"Error parsing XML
file: {path}")` — only a raw parse error is converted. -/
def catchParseError {β : Type} (path : String) (body : Except PyError β) :
    Except PyError β :=
  match body with
  | .error .etParseError => .error (.valueError ("Error parsing XML file: " ++ path))
  | r => r

/-- `parse_students` of `XmlDataLoader.load`. -/
def parse_students (path : String) (file : XmlFile) :
    Except PyError (List XmlStudent) :=
  catchParseError path
    (match file with
     | .error e => .error e
     | .ok els => mapXmlStudents els)

/-- `parse_rooms` of `XmlDataLoader.load`. -/
def parse_rooms (path : String) (file : XmlFile) :
    Except PyError (List XmlRoom) :=
  catchParseError path
    (match file with
     | .error e => .error e
     | .ok els => mapXmlRooms els)

/-- `XmlDataLoader.load`: students first, then rooms. -/
def xmlLoad (students_path rooms_path : String)
    (students_file rooms_file : XmlFile) :
    Except PyError (List XmlStudent × List XmlRoom) :=
  match parse_students students_path students_file with
  | .error e => .error e
  | .ok studs =>
    match parse_rooms rooms_path rooms_file with
    | .error e => .error e
    | .ok rms => .ok (studs, rms)

/-! ## Helper lemmas -/

/-- A successful room batch appends exactly its rows to the rooms table and
leaves the students table untouched. -/
theorem cursor_executemany_rooms_append (st : DbData) (rows : List (Int × String))
    (p : DbData) (h : cursor_executemany insert_room_row st rows = .ok p) :
    p.rooms = st.rooms ++ rows ∧ p.students = st.students := by
  induction rows generalizing st with
  | nil =>
    rw [cursor_executemany] at h
    cases h
    simp
  | cons r rs ih =>
    rw [cursor_executemany] at h
    cases hr : insert_room_row st r with
    | error e => rw [hr] at h; cases h
    | ok st2 =>
      rw [hr] at h
      have hrec := ih st2 h
      unfold insert_room_row at hr
      split at hr
      · cases hr
      · cases hr
        refine ⟨?_, ?_⟩
        · rw [hrec.1]
          simp
        · rw [hrec.2]

/-- `catchParseError` never lets a raw `ET.ParseError` escape. -/
theorem catchParseError_no_raw {β : Type} (path : String)
    (body : Except PyError β) (e : PyError)
    (h : catchParseError path body = .error e) : e ≠ .etParseError := by
  cases body with
  | ok b => simp [catchParseError] at h
  | error pe => cases pe <;> simp_all [catchParseError] <;> simp [← h]

/-- Membership in an `insertDesc` insertion. -/
theorem mem_insertDesc (x y : String × Nat) (l : List (String × Nat)) :
    y ∈ insertDesc x l ↔ y = x ∨ y ∈ l := by
  induction l with
  | nil => simp [insertDesc]
  | cons z zs ih =>
    rw [insertDesc]
    split
    · simp
    · simp [ih]
      tauto

/-- `insertDesc` preserves descending order of counts. -/
theorem pairwise_insertDesc (x : String × Nat) (l : List (String × Nat))
    (h : l.Pairwise (fun a b => b.2 ≤ a.2)) :
    (insertDesc x l).Pairwise (fun a b => b.2 ≤ a.2) := by
  induction l with
  | nil => simp [insertDesc]
  | cons z zs ih =>
    rw [List.pairwise_cons] at h
    rw [insertDesc]
    split
    · rename_i hlt
      refine List.Pairwise.cons ?_ (List.Pairwise.cons h.1 h.2)
      intro b hb
      rcases List.mem_cons.mp hb with rfl | hb
      · exact Nat.le_of_lt hlt
      · exact Nat.le_of_lt (Nat.lt_of_le_of_lt (h.1 b hb) hlt)
    · rename_i hge
      refine List.Pairwise.cons ?_ (ih h.2)
      intro b hb
      rcases (mem_insertDesc x b zs).mp hb with rfl | hb
      · exact Nat.le_of_not_lt hge
      · exact h.1 b hb

/-- Membership is invariant under `sortDesc`. -/
theorem mem_sortDesc (l : List (String × Nat)) (y : String × Nat) :
    y ∈ sortDesc l ↔ y ∈ l := by
  induction l with
  | nil => simp [sortDesc]
  | cons x xs ih =>
    show y ∈ insertDesc x (sortDesc xs) ↔ _
    rw [mem_insertDesc, ih]
    simp

/-- `sortDesc` output is descending by count. -/
theorem pairwise_sortDesc (l : List (String × Nat)) :
    (sortDesc l).Pairwise (fun a b => b.2 ≤ a.2) := by
  induction l with
  | nil => simp [sortDesc]
  | cons x xs ih => exact pairwise_insertDesc x (sortDesc xs) ih

/-- A matched numeric field lies within its declared bounds. -/
theorem parseField_bounds {cs : List Char} {minLen maxLen lo hi v : Nat}
    (h : parseField cs minLen maxLen lo hi = some v) : lo ≤ v ∧ v ≤ hi := by
  unfold parseField at h
  split at h
  · cases h
  · split at h
    · rename_i hcond
      cases h
      exact hcond
    · cases h

/-- Every date produced by `parseBirthday` is a valid calendar date. -/
theorem parseBirthday_valid {s : String} {d : PDate}
    (h : parseBirthday s = some d) : validDate d = true := by
  unfold parseBirthday at h
  split at h <;> try cases h
  split at h <;> try cases h
  split at h <;> try cases h
  split at h <;> try cases h
  split at h <;> try cases h
  rename_i hy hm hd hH hM hS hf
  split at h
  · rename_i hday
    cases h
    have by_ := parseField_bounds hy
    have bm := parseField_bounds hm
    have bd := parseField_bounds hd
    simp [validDate]
    omega
  · cases h

/-- When every record's birthday matches the format, the comprehension
succeeds and produces students field-for-field, with the birthday the parsed
date. -/
theorem jsonLoadStudents_ok_of_all (recs : List StudentJson)
    (h : ∀ r ∈ recs, (parseBirthday r.birthday).isSome) :
    ∃ studs, jsonLoadStudents recs = .ok studs ∧
      List.Forall₂ (fun r st =>
        parseBirthday r.birthday = some st.birthday ∧
        st.id = r.id ∧ st.name = r.name ∧ st.room_id = r.room ∧ st.sex = r.sex)
        recs studs := by
  induction recs with
  | nil => exact ⟨[], rfl, List.Forall₂.nil⟩
  | cons r rs ih =>
    have hr := h r (List.mem_cons_self r rs)
    obtain ⟨d, hd⟩ := Option.isSome_iff_exists.mp hr
    obtain ⟨studs, hok, hcorr⟩ := ih (fun r' hr' => h r' (List.mem_cons_of_mem r hr'))
    refine ⟨⟨r.id, r.name, r.room, d, r.sex⟩ :: studs, ?_, ?_⟩
    · rw [jsonLoadStudents, hd, hok]
    · exact List.Forall₂.cons ⟨hd, rfl, rfl, rfl, rfl⟩ hcorr

/-- The comprehension either succeeds or raises the `strptime` `ValueError`. -/
theorem jsonLoadStudents_shape (recs : List StudentJson) :
    (∃ studs, jsonLoadStudents recs = .ok studs) ∨
    (∃ msg, jsonLoadStudents recs = .error (.valueError msg)) := by
  induction recs with
  | nil => exact .inl ⟨[], rfl⟩
  | cons r rs ih =>
    cases hd : parseBirthday r.birthday with
    | none =>
      refine .inr ⟨"time data " ++ r.birthday ++
        " does not match format %Y-%m-%dT%H:%M:%S.%f", ?_⟩
      rw [jsonLoadStudents, hd]
    | some d =>
      rcases ih with ⟨studs, hok⟩ | ⟨msg, herr⟩
      · refine .inl ⟨⟨r.id, r.name, r.room, d, r.sex⟩ :: studs, ?_⟩
        rw [jsonLoadStudents, hd, hok]
      · refine .inr ⟨msg, ?_⟩
        rw [jsonLoadStudents, hd, herr]

/-- A successful comprehension means every record's birthday parsed. -/
theorem jsonLoadStudents_ok_all (recs : List StudentJson)
    (studs : List Student) (h : jsonLoadStudents recs = .ok studs) :
    ∀ r ∈ recs, (parseBirthday r.birthday).isSome := by
  induction recs generalizing studs with
  | nil => intro r hr; cases hr
  | cons r rs ih =>
    intro r' hr'
    rw [jsonLoadStudents] at h
    cases hd : parseBirthday r.birthday with
    | none => rw [hd] at h; cases h
    | some d =>
      rw [hd] at h
      rcases List.mem_cons.mp hr' with rfl | hr'
      · simp [hd]
      · cases hre : jsonLoadStudents rs with
        | error e => rw [hre] at h; cases h
        | ok studs' => exact ih studs' hre r' hr'

/-! ## Claims -/

/-- Claim C1 (code bug): the spec promises that re-running `initialize_db`
against an already-initialized target is a no-op with no duplicate-object
error, and the database/table statements are indeed `IF NOT EXISTS`; but the
three `CREATE INDEX` statements of `_create_indexes` have no existence
guard, so the second run fails with a duplicate-key-name error on the first
index.  This theorem evaluates the model at the failing input: a fresh
server, initialized once successfully, then initialized again. -/
theorem C1_second_initialize_duplicate_index :
    ∃ s1, initialize_db (mkMySqlProcessor none) ⟨[], none⟩ = .ok s1 ∧
      initialize_db (mkMySqlProcessor none) s1 =
        .error (.duplicateKeyName "idx_students_room_id") :=
  ⟨⟨[("myDb", ⟨["rooms", "students"],
      ["idx_students_room_id", "idx_students_birthday", "idx_students_room_sex"]⟩)],
    some "myDb"⟩, rfl, rfl⟩

/-- Claim C2: `executemany` is transactional per batch.  If executing the
rows on the cursor fails, the connection rolls back — the committed database
state after the call is exactly the committed state before it — and the
error is re-raised; if every row succeeds, the whole batch is committed as
one unit. -/
theorem C2_executemany_transactional {ρ α ε : Type}
    (step : ρ → α → Except ε ρ) (c : TxConn ρ) (rows : List α) :
    (∀ e, cursor_executemany step c.pending rows = .error e →
      (executemany step c rows).1.committed = c.committed ∧
      (executemany step c rows).1.pending = c.committed ∧
      (executemany step c rows).2 = some e) ∧
    (∀ p, cursor_executemany step c.pending rows = .ok p →
      (executemany step c rows).1.committed = p ∧
      (executemany step c rows).1.pending = p ∧
      (executemany step c rows).2 = none) := by
  constructor
  · intro e he
    simp [executemany, he]
  · intro p hp
    simp [executemany, hp]

/-- Witness for C2: a room batch whose second row violates the primary key
is rolled back (committed state unchanged, error re-raised); a clean batch
commits. -/
theorem C2_executemany_transactional_witness :
    ((executemany insert_room_row
        ⟨⟨[(1, "A")], []⟩, ⟨[(1, "A")], []⟩⟩ [(2, "B"), (1, "C")]).1.committed =
      ⟨[(1, "A")], []⟩ ∧
     (executemany insert_room_row
        ⟨⟨[(1, "A")], []⟩, ⟨[(1, "A")], []⟩⟩ [(2, "B"), (1, "C")]).2 =
      some .duplicateEntry) ∧
    (executemany insert_room_row
        ⟨⟨[], []⟩, ⟨[], []⟩⟩ [(1, "A")]).1.committed = ⟨[(1, "A")], []⟩ := by
  refine ⟨⟨?_, ?_⟩, ?_⟩
  · exact ((C2_executemany_transactional insert_room_row
      ⟨⟨[(1, "A")], []⟩, ⟨[(1, "A")], []⟩⟩ [(2, "B"), (1, "C")]).1
      .duplicateEntry rfl).1
  · exact ((C2_executemany_transactional insert_room_row
      ⟨⟨[(1, "A")], []⟩, ⟨[(1, "A")], []⟩⟩ [(2, "B"), (1, "C")]).1
      .duplicateEntry rfl).2.2
  · exact ((C2_executemany_transactional insert_room_row
      ⟨⟨[], []⟩, ⟨[], []⟩⟩ [(1, "A")]).2 ⟨[(1, "A")], []⟩ rfl).1

/-- Claim C3: `insert_data` runs the room batch first; when the subsequent
student batch fails (e.g. by a foreign-key violation), the call re-raises
that error while the room batch stays committed: the final committed state
holds exactly the prior rows plus the whole room batch, and no student
row. -/
theorem C3_rooms_stay_committed_on_student_failure
    (c : TxConn DbData) (students : List Student) (rooms : List Room)
    (p : DbData) (e : QueryError)
    (hrooms : cursor_executemany insert_room_row c.pending (rooms_data rooms) = .ok p)
    (hstud : cursor_executemany insert_student_row p (students_data students) = .error e) :
    insert_data c students rooms = (⟨p, p⟩, some e) ∧
    p.rooms = c.pending.rooms ++ rooms_data rooms ∧
    p.students = c.pending.students := by
  have happ := cursor_executemany_rooms_append c.pending (rooms_data rooms) p hrooms
  refine ⟨?_, happ.1, happ.2⟩
  simp [insert_data, executemany, hrooms, hstud]

/-- Witness for C3: on an empty database, inserting room `(1, "A")` and a
student referencing the non-existent room `2` commits the room and re-raises
the foreign-key violation from the student batch. -/
theorem C3_rooms_stay_committed_witness :
    insert_data ⟨⟨[], []⟩, ⟨[], []⟩⟩
        [⟨1, "X", 2, ⟨1990, 1, 1⟩, "M"⟩] [⟨1, "A"⟩] =
      (⟨⟨[(1, "A")], []⟩, ⟨[(1, "A")], []⟩⟩, some .fkViolation) :=
  (C3_rooms_stay_committed_on_student_failure
    ⟨⟨[], []⟩, ⟨[], []⟩⟩ [⟨1, "X", 2, ⟨1990, 1, 1⟩, "M"⟩] [⟨1, "A"⟩]
    ⟨[(1, "A")], []⟩ .fkViolation rfl rfl).1

/-- Claim C8: `close()` is safe on every connection state — on a
never-connected connection it is a no-op (no driver call, no exception), it
never raises on any state, and a second `close()` after a successful one
also does not raise. -/
theorem C8_close_safe :
    MySqlConnection.close mkMySqlConnection = .ok (mkMySqlConnection, []) ∧
    (∀ c : MySqlConnection, ∃ c2 calls, MySqlConnection.close c = .ok (c2, calls)) ∧
    (∃ c2 calls c3 calls2,
      MySqlConnection.close (MySqlConnection.connectOk mkMySqlConnection) =
        .ok (c2, calls) ∧
      MySqlConnection.close c2 = .ok (c3, calls2)) := by
  refine ⟨rfl, ?_, ?_⟩
  · intro c
    obtain ⟨cn, cur⟩ := c
    cases cn <;> cases cur <;> exact ⟨_, _, rfl⟩
  · exact ⟨⟨some false, some false⟩, [.cursorClose, .connClose],
      ⟨some false, some false⟩, [.cursorClose, .connClose], rfl, rfl⟩

/-- Claim C10: with `db_name = None` every schema statement targets the
default name `myDb`; any other name is interpolated verbatim into the
`CREATE DATABASE` and `USE` statements. -/
theorem C10_database_name_default_and_verbatim :
    (mkMySqlProcessor none).database_name = "myDb" ∧
    (mkMySqlProcessor none).create_database_stmt =
      "CREATE DATABASE IF NOT EXISTS myDb" ∧
    (mkMySqlProcessor none).use_database_stmt = "USE myDb" ∧
    ∀ s : String,
      (mkMySqlProcessor (some s)).database_name = s ∧
      (mkMySqlProcessor (some s)).create_database_stmt =
        "CREATE DATABASE IF NOT EXISTS " ++ s ∧
      (mkMySqlProcessor (some s)).use_database_stmt = "USE " ++ s :=
  ⟨rfl, rfl, rfl, fun _ => ⟨rfl, rfl, rfl⟩⟩

/-- Claim C4: once connected, every run releases the connection (`close` is
in the trace), ends with the caught-and-reported event exactly when some
step failed (otherwise ends with `close`), and no pipeline step after a
failing one is ever attempted. -/
theorem C4_run_reaches_closed (kind : LoaderKind) (o : StepOutcomes)
    (h : o.connect_err = none) :
    PipeEvent.close ∈ run_trace kind o ∧
    (run_trace kind o).getLast? =
      some (if bodyFailed o then PipeEvent.caught else PipeEvent.close) ∧
    (o.init_err.isSome →
      PipeEvent.clear ∉ run_trace kind o ∧
      (∀ k sp rp, PipeEvent.load k sp rp ∉ run_trace kind o) ∧
      PipeEvent.insert ∉ run_trace kind o ∧
      PipeEvent.report ∉ run_trace kind o) ∧
    (o.clear_err.isSome →
      (∀ k sp rp, PipeEvent.load k sp rp ∉ run_trace kind o) ∧
      PipeEvent.insert ∉ run_trace kind o ∧
      PipeEvent.report ∉ run_trace kind o) ∧
    (o.load_err.isSome →
      PipeEvent.insert ∉ run_trace kind o ∧
      PipeEvent.report ∉ run_trace kind o) ∧
    (o.insert_err.isSome → PipeEvent.report ∉ run_trace kind o) := by
  cases hie : o.init_err <;> cases hcl : o.clear_err <;> cases hld : o.load_err <;>
    cases his : o.insert_err <;> cases hre : o.report_err <;>
    simp [run_trace, seqSteps, bodyFailed, h, hie, hcl, hld, his, hre]

/-- Witness for C4: with a failing load step, the trace still contains
`close`, ends with the caught event, and attempts no insert. -/
theorem C4_run_reaches_closed_witness :
    PipeEvent.close ∈
      run_trace .json ⟨none, none, none, some "boom", none, none⟩ ∧
    (run_trace .json ⟨none, none, none, some "boom", none, none⟩).getLast? =
      some (if bodyFailed ⟨none, none, none, some "boom", none, none⟩
            then PipeEvent.caught else PipeEvent.close) ∧
    PipeEvent.insert ∉
      run_trace .json ⟨none, none, none, some "boom", none, none⟩ :=
  ⟨(C4_run_reaches_closed .json ⟨none, none, none, some "boom", none, none⟩ rfl).1,
   (C4_run_reaches_closed .json ⟨none, none, none, some "boom", none, none⟩ rfl).2.1,
   ((C4_run_reaches_closed .json ⟨none, none, none, some "boom", none, none⟩ rfl).2.2.2.2.1
     rfl).1⟩

/-- Claim C9: whichever loader variant is installed, `run` calls
`loader.load` with exactly the fixed paths `students.json` and `rooms.json`:
any load event in the trace carries those paths, and whenever the run gets
as far as the load step (connect, schema init and clear succeeded) the load
event with those paths occurs. -/
theorem C9_fixed_load_paths (kind : LoaderKind) (o : StepOutcomes) :
    (∀ k sp rp, PipeEvent.load k sp rp ∈ run_trace kind o →
      k = kind ∧ sp = "students.json" ∧ rp = "rooms.json") ∧
    (o.connect_err = none → o.init_err = none → o.clear_err = none →
      PipeEvent.load kind "students.json" "rooms.json" ∈ run_trace kind o) := by
  cases hc : o.connect_err <;> cases hie : o.init_err <;> cases hcl : o.clear_err <;>
    cases hld : o.load_err <;> cases his : o.insert_err <;> cases hre : o.report_err <;>
    simp [run_trace, seqSteps, hc, hie, hcl, hld, his, hre]

/-- Witness for C9: a run configured with the XML loader still loads
`students.json` and `rooms.json`. -/
theorem C9_fixed_load_paths_witness :
    PipeEvent.load .xml "students.json" "rooms.json" ∈
      run_trace .xml ⟨none, none, none, none, none, none⟩ :=
  (C9_fixed_load_paths .xml ⟨none, none, none, none, none, none⟩).2 rfl rfl rfl

/-- Claim C5: a students or rooms file that is not well-formed XML makes
`XmlDataLoader.load` fail with the descriptive `ValueError` raised in place
of the caught `ET.ParseError` (the spec's `DataFormatError`), and no raw
parser error ever escapes the loader. -/
theorem C5_xml_malformed_descriptive_error (sp rp : String) (sf rf : XmlFile) :
    (sf = .error .etParseError →
      xmlLoad sp rp sf rf =
        .error (.valueError ("Error parsing XML file: " ++ sp))) ∧
    (∀ ss, parse_students sp sf = .ok ss → rf = .error .etParseError →
      xmlLoad sp rp sf rf =
        .error (.valueError ("Error parsing XML file: " ++ rp))) ∧
    (∀ e, xmlLoad sp rp sf rf = .error e → e ≠ .etParseError) := by
  refine ⟨?_, ?_, ?_⟩
  · intro h
    subst h
    rfl
  · intro ss hss h
    subst h
    unfold xmlLoad
    rw [hss]
    rfl
  · intro e h
    unfold xmlLoad at h
    cases hps : parse_students sp sf with
    | error e1 =>
      rw [hps] at h
      cases h
      exact catchParseError_no_raw sp _ _ hps
    | ok ss =>
      rw [hps] at h
      cases hpr : parse_rooms rp rf with
      | error e2 =>
        rw [hpr] at h
        cases h
        exact catchParseError_no_raw rp _ _ hpr
      | ok rms => rw [hpr] at h; cases h

/-- Witness for C5: a malformed students file, and a malformed rooms file
after a well-formed (empty) students file, both yield the descriptive
`ValueError`; an error returned is never the raw parse error. -/
theorem C5_xml_malformed_descriptive_error_witness :
    xmlLoad "students.xml" "rooms.xml" (.error .etParseError) (.ok []) =
      .error (.valueError ("Error parsing XML file: " ++ "students.xml")) ∧
    xmlLoad "students.xml" "rooms.xml" (.ok []) (.error .etParseError) =
      .error (.valueError ("Error parsing XML file: " ++ "rooms.xml")) :=
  ⟨(C5_xml_malformed_descriptive_error "students.xml" "rooms.xml"
      (.error .etParseError) (.ok [])).1 rfl,
   (C5_xml_malformed_descriptive_error "students.xml" "rooms.xml"
      (.ok []) (.error .etParseError)).2.1 [] rfl rfl⟩

/-- Claim C6 counterexample: the occupancy query groups by room *name*
(`GROUP BY r.name`), so two distinct rooms sharing a name are merged into
one row.  With rooms `(1, "A")` and `(2, "A")` holding one student each, the
report is `[("A", 2)]` and contains no `("A", 1)` row for either room,
refuting the claim that every room with at least one student contributes its
own (name, count) row. -/
theorem C6_per_room_row_counterexample :
    ¬ (∀ db : DbData, ∀ r ∈ db.rooms,
        0 < (db.students.filter (fun s => s.2.2.1 = r.1)).length →
        (r.2, (db.students.filter (fun s => s.2.2.1 = r.1)).length) ∈
          student_counts db) := by
  intro hclaim
  have hmem := hclaim
    ⟨[(1, "A"), (2, "A")],
     [(1, "X", 1, ⟨1990, 1, 1⟩, "M"), (2, "Y", 2, ⟨2000, 1, 1⟩, "F")]⟩
    (1, "A") (by decide) (by decide)
  exact absurd hmem (by decide)

/-- Claim C6 (amended): the occupancy report has one row per distinct room
*name* having at least one student — rooms sharing a name are merged, the
count being the total number of students across all rooms of that name — in
descending order of count, with no row for a name whose rooms have no
students; on the spec's example input it is exactly `[("A", 2)]`. -/
theorem C6_occupancy_by_name (db : DbData) (n : String) (c : Nat) :
    ((n, c) ∈ student_counts db ↔
      (c = (joinNames db).count n ∧ 0 < c)) ∧
    (student_counts db).Pairwise (fun a b => b.2 ≤ a.2) ∧
    student_counts ⟨[(1, "A"), (2, "B")],
      [(1, "X", 1, ⟨1990, 1, 1⟩, "M"), (2, "Y", 1, ⟨2000, 1, 1⟩, "F")]⟩ =
      [("A", 2)] := by
  refine ⟨?_, pairwise_sortDesc _, by decide⟩
  unfold student_counts
  rw [mem_sortDesc]
  simp only [List.mem_map]
  constructor
  · rintro ⟨a, ha, heq⟩
    obtain ⟨rfl, rfl⟩ : a = n ∧ (joinNames db).count a = c := by
      exact ⟨congrArg Prod.fst heq, congrArg Prod.snd heq⟩
    exact ⟨rfl, List.count_pos_iff.mpr (List.mem_dedup.mp ha)⟩
  · rintro ⟨rfl, hpos⟩
    exact ⟨n, List.mem_dedup.mpr (List.count_pos_iff.mp hpos), rfl⟩

/-- Claim C7: when every record's birthday text matches the `strptime`
format, `JsonDataLoader`'s student comprehension succeeds and each produced
`Student.birthday` is the parsed, valid calendar date of its record (other
fields copied verbatim); when any record's birthday does not match, the load
fails with the `strptime` `ValueError` (the spec's `ParseError`). -/
theorem C7_json_birthday_parsing (recs : List StudentJson) :
    ((∀ r ∈ recs, (parseBirthday r.birthday).isSome) →
      ∃ studs, jsonLoadStudents recs = .ok studs ∧
        List.Forall₂ (fun r st =>
          parseBirthday r.birthday = some st.birthday ∧
          validDate st.birthday = true ∧
          st.id = r.id ∧ st.name = r.name ∧ st.room_id = r.room ∧ st.sex = r.sex)
          recs studs) ∧
    (∀ r ∈ recs, parseBirthday r.birthday = none →
      ∃ msg, jsonLoadStudents recs = .error (.valueError msg)) := by
  constructor
  · intro h
    obtain ⟨studs, hok, hcorr⟩ := jsonLoadStudents_ok_of_all recs h
    refine ⟨studs, hok, ?_⟩
    refine List.Forall₂.imp ?_ hcorr
    rintro r st ⟨hbd, hid, hname, hroom, hsex⟩
    exact ⟨hbd, parseBirthday_valid hbd, hid, hname, hroom, hsex⟩
  · intro r hr hnone
    rcases jsonLoadStudents_shape recs with ⟨studs, hok⟩ | ⟨msg, herr⟩
    · have := jsonLoadStudents_ok_all recs studs hok r hr
      rw [hnone] at this
      cases this
    · exact ⟨msg, herr⟩

/-- Witness for C7: a record with birthday `1990-01-01T00:00:00.000000`
loads into a student carrying the date 1990-01-01, and a record with
birthday `1990-13-01` (no time part, month out of range) makes the load
raise `ValueError`. -/
theorem C7_json_birthday_parsing_witness :
    (∃ studs,
      jsonLoadStudents [⟨1, "X", 1, "1990-01-01T00:00:00.000000", "M"⟩] =
        .ok studs ∧
      List.Forall₂ (fun (r : StudentJson) (st : Student) =>
        parseBirthday r.birthday = some st.birthday ∧
        validDate st.birthday = true ∧
        st.id = r.id ∧ st.name = r.name ∧ st.room_id = r.room ∧ st.sex = r.sex)
        [⟨1, "X", 1, "1990-01-01T00:00:00.000000", "M"⟩] studs) ∧
    (∃ msg, jsonLoadStudents [⟨2, "Y", 1, "1990-13-01", "F"⟩] =
      .error (.valueError msg)) :=
  ⟨(C7_json_birthday_parsing [⟨1, "X", 1, "1990-01-01T00:00:00.000000", "M"⟩]).1
      (by decide),
   (C7_json_birthday_parsing [⟨2, "Y", 1, "1990-13-01", "F"⟩]).2
      ⟨2, "Y", 1, "1990-13-01", "F"⟩ (by simp) (by decide)⟩
